import Mathlib

/-!
# SkyLink drone: shallow embedding and claim verification

This file embeds the protocol engine of the SkyLink drone
(`src/src/my_drone.rs`) in Lean: the packet data model, the validation
pipeline (`apply_checks` and the four checks in `mod check_packet`), the
reverse-path error construction (`error::create_error`), the forwarding and
flood handling (`handle_packet`, `send_flood_response`), the command handler
(`handle_command`), the crashed-state packet handler
(`crashing_handle_packet`) and one iteration of the `run` loop (`run_step`).

Modelling conventions:
- machine integers (`u8`, `u32`, `u64`, `usize`) are `Nat`; the source only
  compares them for equality or order, never performs wrapping arithmetic;
- a crossbeam channel endpoint stored in the neighbor table is modelled by a
  `Bool`: `true` means the receiving end is alive so `send` succeeds, `false`
  means the channel is closed so `send` returns `Err`;
- the controller event channel is assumed open, so emitting a `PacketSent`
  event always succeeds (its closure is outside every claim);
- a Rust panic (failed `unwrap`, out-of-bounds index, `usize` underflow in
  `path_trace.len() - 1`) aborts the actor; it is modelled by the `fatal`
  result, which carries the channel effects performed before the panic;
- the random draw `fastrand::u32(0..101)` of `pdr_check` is passed in as an
  explicit `random_number` argument.
-/

namespace SkyLink

/-- Node identifiers (`NodeId` is `u8` in the source; only equality is used). -/
abbrev NodeId := Nat

/-- Node roles recorded in flood path traces (wg_2024 `NodeType`). -/
inductive NodeType
  | Drone
  | Client
  | Server
  deriving DecidableEq

/-- wg_2024 `SourceRoutingHeader`: an ordered hop sequence plus a cursor. -/
structure SourceRoutingHeader where
  hop_index : Nat
  hops : List NodeId
  deriving DecidableEq

/-- wg_2024 `NackType`. -/
inductive NackType
  | ErrorInRouting (id : NodeId)
  | DestinationIsDrone
  | Dropped
  | UnexpectedRecipient (id : NodeId)
  deriving DecidableEq

/-- wg_2024 `Nack` body. -/
structure Nack where
  fragment_index : Nat
  nack_type : NackType
  deriving DecidableEq

/-- wg_2024 `Fragment`. The drone code only ever reads `fragment_index`;
the opaque payload fields (`total_n_fragments`, `length`, `data`) are
omitted because no line of `my_drone.rs` touches them. -/
structure Fragment where
  fragment_index : Nat
  deriving DecidableEq

/-- wg_2024 `FloodRequest`. The `initiator_id` field of the library type is
never read by this drone's code and is omitted. -/
structure FloodRequest where
  flood_id : Nat
  path_trace : List (NodeId × NodeType)
  deriving DecidableEq

/-- wg_2024 `FloodResponse`. -/
structure FloodResponse where
  flood_id : Nat
  path_trace : List (NodeId × NodeType)
  deriving DecidableEq

/-- wg_2024 `PacketType`: the tagged union of the five packet kinds. -/
inductive PacketType
  | MsgFragment (fragment : Fragment)
  | Ack (fragment_index : Nat)
  | Nack (nack : SkyLink.Nack)
  | FloodRequest (req : SkyLink.FloodRequest)
  | FloodResponse (resp : SkyLink.FloodResponse)
  deriving DecidableEq

/-- wg_2024 `Packet`. -/
structure Packet where
  pack_type : PacketType
  routing_header : SourceRoutingHeader
  session_id : Nat
  deriving DecidableEq

/-- The drone state (`SkyLinkDrone`, my_drone.rs lines 8-17).  The channel
endpoints (`controller_send`, `controller_recv`, `packet_recv`) are not part
of the state: inbound traffic is fed to `run_step` and outbound effects are
returned as `OutAction`s.  `packet_send` is the neighbor table, an
association list standing for the source's `HashMap<NodeId, Sender<Packet>>`
with each `Sender` modelled by its liveness flag.  `pdr` stores the integer
percentage obtained in the source from `(pdr * 100.0) as u32`. -/
structure SkyLinkDrone where
  id : NodeId
  packet_send : List (NodeId × Bool)
  pdr : Nat
  flood_ids : List Nat
  crashing : Bool
  deriving DecidableEq

/-- `HashMap::contains_key` on the modelled neighbor table. -/
def mapContainsKey (m : List (NodeId × Bool)) (k : NodeId) : Bool :=
  (m.find? (fun e => e.1 == k)).isSome

/-- `HashMap::get` on the modelled neighbor table: `none` when the key is
absent (so `get(..).unwrap()` would panic), `some flag` otherwise. -/
def mapGet (m : List (NodeId × Bool)) (k : NodeId) : Option Bool :=
  (m.find? (fun e => e.1 == k)).map (fun e => e.2)

/-- `HashMap::insert`: overwrite the existing entry or append a new one. -/
def mapInsert (m : List (NodeId × Bool)) (k : NodeId) (v : Bool) :
    List (NodeId × Bool) :=
  if mapContainsKey m k then
    m.map (fun e => if e.1 == k then (k, v) else e)
  else
    m ++ [(k, v)]

/-- `HashMap::remove`. -/
def mapRemove (m : List (NodeId × Bool)) (k : NodeId) : List (NodeId × Bool) :=
  m.filter (fun e => e.1 != k)

/-- `error::create_error` (my_drone.rs lines 190-209): build a `Nack` packet
carrying the fragment index when the failing packet was a fragment, with the
routing header holding the full reversal of the packet's hop sequence and
`hop_index` reset to 1. -/
def create_error (packet : Packet) (nack_type : NackType) : Packet :=
  let fragment_index :=
    match packet.pack_type with
    | PacketType.MsgFragment f => f.fragment_index
    | _ => 0
  { pack_type := PacketType.Nack
      { fragment_index := fragment_index, nack_type := nack_type },
    routing_header :=
      { hop_index := 1, hops := packet.routing_header.hops.reverse },
    session_id := packet.session_id }

/-- `check_packet::id_hop_match_check` (lines 216-222).  The source indexes
`hops[hop_index]` directly, which panics when the cursor is out of bounds;
the panic is `none`. -/
def id_hop_match_check (drone : SkyLinkDrone) (packet : Packet) :
    Option (Except Packet Unit) :=
  match packet.routing_header.hops[packet.routing_header.hop_index]? with
  | none => none
  | some h =>
    if h = drone.id then some (Except.ok ())
    else some (Except.error
      (create_error packet (NackType.UnexpectedRecipient drone.id)))

/-- `check_packet::final_destination_check` (lines 223-229). -/
def final_destination_check (packet : Packet) : Except Packet Unit :=
  if packet.routing_header.hop_index < packet.routing_header.hops.length then
    Except.ok ()
  else
    Except.error (create_error packet NackType.DestinationIsDrone)

/-- `check_packet::is_next_hop_check` (lines 230-237).  Indexing panic
modelled as `none`. -/
def is_next_hop_check (drone : SkyLinkDrone) (packet : Packet) :
    Option (Except Packet Unit) :=
  match packet.routing_header.hops[packet.routing_header.hop_index]? with
  | none => none
  | some next_hop =>
    if mapContainsKey drone.packet_send next_hop then some (Except.ok ())
    else some (Except.error
      (create_error packet (NackType.ErrorInRouting drone.id)))

/-- `check_packet::pdr_check` (lines 238-246): for a `MsgFragment`, draw
`random_number` uniformly from `[0,100]` (`fastrand::u32(0..101)`, passed
here as an argument) and fail with `Dropped` when `random_number > pdr`;
any other packet kind passes. -/
def pdr_check (drone : SkyLinkDrone) (packet : Packet) (random_number : Nat) :
    Except Packet Unit :=
  match packet.pack_type with
  | PacketType.MsgFragment _ =>
    if random_number > drone.pdr then
      Except.error (create_error packet NackType.Dropped)
    else
      Except.ok ()
  | _ => Except.ok ()

/-- The cursor advance performed between the first and second check
(`packet.routing_header.hop_index += 1`, line 149). -/
def advanceHeader (packet : Packet) : Packet :=
  { packet with
    routing_header :=
      { packet.routing_header with
        hop_index := packet.routing_header.hop_index + 1 } }

/-- `apply_checks` (lines 145-159): run the four checks in their fixed
order, advancing the cursor after the hop-match check; the first failure
short-circuits, a full pass returns the advanced packet.  `none` is a panic
inside a check. -/
def apply_checks (drone : SkyLinkDrone) (packet : Packet)
    (random_number : Nat) : Option (Except Packet Packet) :=
  match id_hop_match_check drone packet with
  | none => none
  | some (Except.error e) => some (Except.error e)
  | some (Except.ok ()) =>
    let advanced := advanceHeader packet
    match final_destination_check advanced with
    | Except.error e => some (Except.error e)
    | Except.ok () =>
      match pdr_check drone advanced random_number with
      | Except.error e => some (Except.error e)
      | Except.ok () =>
        match is_next_hop_check drone advanced with
        | none => none
        | some (Except.error e) => some (Except.error e)
        | some (Except.ok ()) => some (Except.ok advanced)

/-- An observable channel effect of one handling step:
`send dst p` is a successful send of `p` on neighbor `dst`'s channel,
`sendFail dst p` is an attempted send on a closed channel (Rust `send`
returned `Err`), and `event p` is a `PacketSent(p)` telemetry event on the
controller channel. -/
inductive OutAction
  | send (dst : NodeId) (packet : Packet)
  | sendFail (dst : NodeId) (packet : Packet)
  | event (packet : Packet)
  deriving DecidableEq

/-- Result of handling one packet: `ok` returns the (possibly updated)
drone and the effects in order; `fatal` is a Rust panic, carrying the
effects performed before the panic. -/
inductive HandleResult
  | ok (drone : SkyLinkDrone) (actions : List OutAction)
  | fatal (actions : List OutAction)
  deriving DecidableEq

/-- The non-flood arm of `handle_packet` (lines 115-137).  On a validated
packet the source sends to `hops[hop_index]` via `get(..).unwrap()` and
emits `PacketSent` on success; when that send fails it builds an
`ErrorInRouting(next_hop)` Nack and sends it with
`get(&next_hop).unwrap().send(err).unwrap()` — to the same `next_hop` whose
channel just failed, so that unwrap panics.  On a check failure the Nack is
sent to `nack.hops[nack.hop_index]` with both `get(..).unwrap()` and
`send(..).unwrap()`, and no telemetry is emitted. -/
def handle_nonflood (drone : SkyLinkDrone) (packet : Packet)
    (random_number : Nat) : HandleResult :=
  match apply_checks drone packet random_number with
  | none => HandleResult.fatal []
  | some (Except.ok pkt) =>
    match pkt.routing_header.hops[pkt.routing_header.hop_index]? with
    | none => HandleResult.fatal []
    | some next_hop =>
      match mapGet drone.packet_send next_hop with
      | none => HandleResult.fatal []
      | some true =>
        HandleResult.ok drone [OutAction.send next_hop pkt, OutAction.event pkt]
      | some false =>
        let err := create_error pkt (NackType.ErrorInRouting next_hop)
        HandleResult.fatal
          [OutAction.sendFail next_hop pkt, OutAction.sendFail next_hop err]
  | some (Except.error nack) =>
    match nack.routing_header.hops[nack.routing_header.hop_index]? with
    | none => HandleResult.fatal []
    | some next_hop =>
      match mapGet drone.packet_send next_hop with
      | none => HandleResult.fatal []
      | some true => HandleResult.ok drone [OutAction.send next_hop nack]
      | some false => HandleResult.fatal [OutAction.sendFail next_hop nack]

/-- The broadcast loop of the flood arm (lines 105-112): iterate over the
neighbor table, skip the neighbor the request came from, send the original
packet to each of the others and emit one `PacketSent` per successful send;
failed sends are silently skipped (no `else` in the source). -/
def broadcast (drone : SkyLinkDrone) (prev : NodeId) (packet : Packet) :
    List OutAction :=
  (drone.packet_send.map (fun e =>
    if e.1 ≠ prev then
      if e.2 then [OutAction.send e.1 packet, OutAction.event packet]
      else [OutAction.sendFail e.1 packet]
    else [])).flatten

/-- `send_flood_response` (lines 162-183): build the `FloodResponse` packet
whose header reverses the (updated) path-trace identifiers with
`hop_index = 1`, feed it to `self.handle_packet(resp.clone())`, then emit
`PacketSent(resp)` unconditionally.  The recursive `handle_packet` call
always receives a `FloodResponse`, which takes the non-flood arm, so it is
embedded directly as `handle_nonflood`. -/
def send_flood_response (drone : SkyLinkDrone) (flood : FloodRequest)
    (random_number : Nat) : HandleResult :=
  let resp : Packet :=
    { pack_type := PacketType.FloodResponse
        { flood_id := flood.flood_id, path_trace := flood.path_trace },
      routing_header :=
        { hop_index := 1,
          hops := flood.path_trace.reverse.map (fun e => e.1) },
      session_id := flood.flood_id }
  match handle_nonflood drone resp random_number with
  | HandleResult.ok d actions =>
    HandleResult.ok d (actions ++ [OutAction.event resp])
  | HandleResult.fatal actions => HandleResult.fatal actions

/-- `handle_packet` (lines 91-139).  For a `FloodRequest` the source first
reads `path_trace.get(path_trace.len() - 1).unwrap().0` — a panic when the
trace is empty (`usize` underflow / `unwrap` of `None`) — then pushes
`(self.id, Drone)`; a seen `flood_id` or a single-entry neighbor table
answers via `send_flood_response`, otherwise the original packet is
broadcast.  Note that no branch ever inserts into `flood_ids` and no field
of the drone is mutated. -/
def handle_packet (drone : SkyLinkDrone) (packet : Packet)
    (random_number : Nat) : HandleResult :=
  match packet.pack_type with
  | PacketType.FloodRequest flood_request =>
    match flood_request.path_trace.getLast? with
    | none => HandleResult.fatal []
    | some last =>
      let prev := last.1
      let updated : FloodRequest :=
        { flood_request with
          path_trace :=
            flood_request.path_trace ++ [(drone.id, NodeType.Drone)] }
      if drone.flood_ids.contains updated.flood_id then
        send_flood_response drone updated random_number
      else if drone.packet_send.length == 1 then
        send_flood_response drone updated random_number
      else
        HandleResult.ok drone (broadcast drone prev packet)
  | _ => handle_nonflood drone packet random_number

/-- wg_2024 `DroneCommand`.  `AddSender` carries a channel endpoint,
modelled by its liveness flag; `SetPacketDropRate` carries an `f32` in the
source, which the handler converts with `(pdr * 100.0) as u32` — the
already-converted integer percentage is carried here, the float conversion
itself being outside the embedding. -/
inductive DroneCommand
  | AddSender (node_id : NodeId) (channel_open : Bool)
  | SetPacketDropRate (pdr : Nat)
  | Crash
  | RemoveSender (node_id : NodeId)
  deriving DecidableEq

/-- `handle_command` (lines 72-89). -/
def handle_command (drone : SkyLinkDrone) (command : DroneCommand) :
    SkyLinkDrone :=
  match command with
  | DroneCommand.AddSender node_id channel_open =>
    { drone with packet_send := mapInsert drone.packet_send node_id channel_open }
  | DroneCommand.SetPacketDropRate pdr => { drone with pdr := pdr }
  | DroneCommand.Crash => { drone with crashing := true }
  | DroneCommand.RemoveSender node_id =>
    { drone with packet_send := mapRemove drone.packet_send node_id }

/-- `crashing_handle_packet` (lines 141-143): the body in the source is
empty, so the state is unchanged and no effect is produced. -/
def crashing_handle_packet (drone : SkyLinkDrone) (_packet : Packet) :
    SkyLinkDrone × List OutAction :=
  (drone, [])

/-- One firing of the `run` loop's `select`: which channel delivered, what
it delivered, and (for a packet) the drop-check draw used while handling
it.  `cmdClosed` / `pktClosed` are `recv` returning `Err` because the
channel is closed. -/
inductive RunInput
  | cmd (c : DroneCommand)
  | cmdClosed
  | pkt (p : Packet) (random_number : Nat)
  | pktClosed
  deriving DecidableEq

/-- Outcome of one `run` loop iteration: `next` continues the loop with the
new state and the effects produced, `fatal` is a panic unwinding out of
`run`, and `halt` would be a normal return from `run` — the source loop
contains no `break` or `return`, so `run_step` never produces it. -/
inductive RunOutcome
  | next (drone : SkyLinkDrone) (actions : List OutAction)
  | fatal (actions : List OutAction)
  | halt
  deriving DecidableEq

/-- Whether a run-loop outcome is a normal termination of the actor. -/
def RunOutcome.isHalt : RunOutcome → Bool
  | RunOutcome.halt => true
  | _ => false

/-- One iteration of `run` (lines 38-68).  Active state (`crashing`
false): `select_biased` services a command (`Err` from a closed command
channel is ignored by the `if let Ok`) or a packet.  Crashing state: only
the packet channel is selected; an `Ok` packet goes to
`crashing_handle_packet` and the `Err` arm for the closed channel has an
empty body, so the loop just continues. -/
def run_step (drone : SkyLinkDrone) (input : RunInput) : RunOutcome :=
  if drone.crashing then
    match input with
    | RunInput.pkt p _ =>
      RunOutcome.next (crashing_handle_packet drone p).1
        (crashing_handle_packet drone p).2
    | _ => RunOutcome.next drone []
  else
    match input with
    | RunInput.cmd c => RunOutcome.next (handle_command drone c) []
    | RunInput.cmdClosed => RunOutcome.next drone []
    | RunInput.pkt p r =>
      match handle_packet drone p r with
      | HandleResult.ok d actions => RunOutcome.next d actions
      | HandleResult.fatal actions => RunOutcome.fatal actions
    | RunInput.pktClosed => RunOutcome.next drone []

/-- Number of `PacketSent` telemetry events in an effect list. -/
def countEvents (actions : List OutAction) : Nat :=
  (actions.filter (fun a =>
    match a with
    | OutAction.event _ => true
    | _ => false)).length

/-! ## Concrete inputs for the claims -/

/-- A drone with drop rate 0 (claim C1). -/
def dPdr0 : SkyLinkDrone :=
  { id := 2, packet_send := [(1, true)], pdr := 0, flood_ids := [],
    crashing := false }

/-- A drone with drop rate 100 (claim C1). -/
def dPdr100 : SkyLinkDrone :=
  { id := 2, packet_send := [(1, true)], pdr := 100, flood_ids := [],
    crashing := false }

/-- A message fragment in transit (claim C1). -/
def fragPktC1 : Packet :=
  { pack_type := PacketType.MsgFragment { fragment_index := 0 },
    routing_header := { hop_index := 1, hops := [1, 2, 3] },
    session_id := 3 }

/-- A drone with three neighbors and an empty SeenFloodSet (claim C2). -/
def dC2 : SkyLinkDrone :=
  { id := 2, packet_send := [(1, true), (3, true), (4, true)], pdr := 0,
    flood_ids := [], crashing := false }

/-- A fresh `FloodRequest` with `flood_id = 7` arriving from node 1
(claim C2). -/
def floodPktC2 : Packet :=
  { pack_type := PacketType.FloodRequest
      { flood_id := 7, path_trace := [(1, NodeType.Client)] },
    routing_header := { hop_index := 0, hops := [] },
    session_id := 7 }

/-- A drone with one open neighbor (claim C3). -/
def dC3 : SkyLinkDrone :=
  { id := 2, packet_send := [(1, true)], pdr := 0, flood_ids := [],
    crashing := false }

/-- An `Ack` whose cursor is out of bounds (`hops = [2]`, `hop_index = 1`)
(claim C3). -/
def oobPktC3 : Packet :=
  { pack_type := PacketType.Ack 0,
    routing_header := { hop_index := 1, hops := [2] },
    session_id := 1 }

/-- A `FloodRequest` with an empty `path_trace` (claim C3). -/
def emptyFloodC3 : Packet :=
  { pack_type := PacketType.FloodRequest { flood_id := 5, path_trace := [] },
    routing_header := { hop_index := 0, hops := [] },
    session_id := 5 }

/-! ## Claim theorems -/

/-- C1: the specification says a `Fragment` is dropped exactly when the
draw is at most `DropRate`, so with `DropRate = 0` a fragment is never
dropped and with `DropRate = 100` it is always dropped.  The code compares
the other way (`random_number > drone.pdr` drops): at `pdr = 0` the draw 50
is dropped, and at `pdr = 100` the draws 0 and 100 both pass, refuting both
boundary statements. -/
theorem pdr_check_inverted :
    pdr_check dPdr0 fragPktC1 50 =
      Except.error (create_error fragPktC1 NackType.Dropped) ∧
    pdr_check dPdr100 fragPktC1 0 = Except.ok () ∧
    pdr_check dPdr100 fragPktC1 100 = Except.ok () :=
  ⟨rfl, rfl, rfl⟩

/-- C2: the specification says a serviced `flood_id` is recorded in the
SeenFloodSet so a re-delivered copy is answered, not re-broadcast.  The
code never inserts into `flood_ids` (the set is only read), so servicing
`FloodRequest{flood_id = 7}` at `dC2` broadcasts to neighbors 3 and 4 and
returns the drone unchanged with `7` still absent from `flood_ids`;
delivering the same request to the returned drone is the identical call,
which broadcasts a second time instead of answering. -/
theorem flood_id_never_recorded :
    handle_packet dC2 floodPktC2 0 =
      HandleResult.ok dC2
        [OutAction.send 3 floodPktC2, OutAction.event floodPktC2,
         OutAction.send 4 floodPktC2, OutAction.event floodPktC2] ∧
    dC2.flood_ids.contains 7 = false :=
  ⟨rfl, rfl⟩

/-- C3: the specification says handling never panics and malformed packets
are converted into Nacks.  The code panics on both malformed shapes named
by the claim: an out-of-bounds `hop_index` makes `id_hop_match_check` index
`hops[hop_index]` out of range, and an empty flood `path_trace` makes
`path_trace.get(len - 1).unwrap()` fail; both abort the actor with no Nack
produced. -/
theorem handle_packet_panics_on_malformed :
    handle_packet dC3 oobPktC3 0 = HandleResult.fatal [] ∧
    handle_packet dC3 emptyFloodC3 0 = HandleResult.fatal [] :=
  ⟨rfl, rfl⟩

/-- C8: `create_error` produces a Nack whose hop sequence is the exact
reverse of the input packet's hops with the cursor reset to 1, and applying
the error construction twice restores the original hop sequence. -/
theorem create_error_reverses (packet : Packet) (t1 t2 : NackType) :
    (create_error packet t1).routing_header.hops =
      packet.routing_header.hops.reverse ∧
    (create_error packet t1).routing_header.hop_index = 1 ∧
    (create_error (create_error packet t1) t2).routing_header.hops =
      packet.routing_header.hops := by
  refine ⟨rfl, rfl, ?_⟩
  simp [create_error]

/-- A drone with neighbors 1 and 3 that has already seen flood 7
(claim C4). -/
def dC4 : SkyLinkDrone :=
  { id := 2, packet_send := [(1, true), (3, true)], pdr := 0,
    flood_ids := [7], crashing := false }

/-- A duplicate `FloodRequest{flood_id = 7}` arriving at `dC4` via node 3
(claim C4). -/
def floodPktC4 : Packet :=
  { pack_type := PacketType.FloodRequest
      { flood_id := 7,
        path_trace := [(1, NodeType.Client), (3, NodeType.Drone)] },
    routing_header := { hop_index := 0, hops := [] },
    session_id := 7 }

/-- The `FloodResponse` packet `send_flood_response` synthesizes for
`floodPktC4` at `dC4`: reversed updated trace `[2,3,1]`, `hop_index = 1`
(claim C4). -/
def respC4 : Packet :=
  { pack_type := PacketType.FloodResponse
      { flood_id := 7,
        path_trace := [(1, NodeType.Client), (3, NodeType.Drone),
                       (2, NodeType.Drone)] },
    routing_header := { hop_index := 1, hops := [2, 3, 1] },
    session_id := 7 }

/-- The `UnexpectedRecipient` Nack that re-validation of `respC4` produces
at `dC4` (claim C4). -/
def nackC4 : Packet :=
  { pack_type := PacketType.Nack
      { fragment_index := 0, nack_type := NackType.UnexpectedRecipient 2 },
    routing_header := { hop_index := 1, hops := [1, 3, 2] },
    session_id := 7 }

/-- A drone whose neighbor 3 has a closed channel (claim C5). -/
def dC5 : SkyLinkDrone :=
  { id := 2, packet_send := [(1, true), (3, false)], pdr := 0,
    flood_ids := [], crashing := false }

/-- A validated-path `Ack` travelling `1 → 2 → 3` at node 2 (claim C5). -/
def pktC5 : Packet :=
  { pack_type := PacketType.Ack 0,
    routing_header := { hop_index := 1, hops := [1, 2, 3] },
    session_id := 9 }

/-- `pktC5` after the validation pipeline advanced its cursor
(claim C5). -/
def pktC5adv : Packet :=
  { pack_type := PacketType.Ack 0,
    routing_header := { hop_index := 2, hops := [1, 2, 3] },
    session_id := 9 }

/-- The `ErrorInRouting(3)` Nack the code builds when the send to 3 fails
(claim C5). -/
def errC5 : Packet :=
  { pack_type := PacketType.Nack
      { fragment_index := 0, nack_type := NackType.ErrorInRouting 3 },
    routing_header := { hop_index := 1, hops := [3, 2, 1] },
    session_id := 9 }

/-- A drone with the single open neighbor 1 (claim C6). -/
def dC6 : SkyLinkDrone :=
  { id := 2, packet_send := [(1, true)], pdr := 0, flood_ids := [],
    crashing := false }

/-- An `Ack` failing the hop-match check at `dC6` (`hops[0] = 1 ≠ 2`)
(claim C6). -/
def pktC6 : Packet :=
  { pack_type := PacketType.Ack 0,
    routing_header := { hop_index := 0, hops := [1, 5] },
    session_id := 4 }

/-- The `UnexpectedRecipient(2)` Nack produced for `pktC6` (claim C6). -/
def nackC6 : Packet :=
  { pack_type := PacketType.Nack
      { fragment_index := 0, nack_type := NackType.UnexpectedRecipient 2 },
    routing_header := { hop_index := 1, hops := [5, 1] },
    session_id := 4 }

/-- C4: the specification says the synthesized `FloodResponse` passes
re-validation at this node and is forwarded to the preceding neighbor.  In
the code the response header starts at `hop_index = 1`, so re-validation
compares `hops[1]` — the *previous* node (3), not this node (2) — with the
drone's identity and fails with `UnexpectedRecipient(2)`; what is actually
sent to neighbor 3 is that Nack, never the `FloodResponse`, and a
`PacketSent(respC4)` event is still emitted for the response that was not
sent. -/
theorem flood_response_fails_revalidation :
    handle_packet dC4 floodPktC4 0 =
      HandleResult.ok dC4 [OutAction.send 3 nackC4, OutAction.event respC4] :=
  rfl

/-- C5: the specification says that when the send to the next hop fails,
the `ErrorInRouting(next_hop)` Nack is sent to the first hop of the
reverse path (node 1 here), not to the failed next hop.  The code instead
does `packet_send.get(&next_hop).unwrap().send(err).unwrap()`: both the
original packet and the Nack are attempted on the closed channel of node 3,
and the final `unwrap` panics, so no attempt toward node 1 ever happens. -/
theorem nack_resent_to_failed_hop :
    handle_packet dC5 pktC5 0 =
      HandleResult.fatal
        [OutAction.sendFail 3 pktC5adv, OutAction.sendFail 3 errC5] :=
  rfl

/-- C6: the specification says every physical send attempt produces exactly
one `PacketSent` event, and every Nack send attempt is reported.  When a
validation check fails, the code sends the Nack with no telemetry at all:
handling `pktC6` at `dC6` performs one successful physical send (the Nack
to node 1) and zero `PacketSent` events. -/
theorem nack_send_unreported :
    handle_packet dC6 pktC6 0 = HandleResult.ok dC6 [OutAction.send 1 nackC6] ∧
    countEvents [OutAction.send 1 nackC6] = 0 :=
  ⟨rfl, rfl⟩

/-- A drone in the Draining state (claim C10). -/
def dC10 : SkyLinkDrone :=
  { id := 5, packet_send := [(1, true)], pdr := 30, flood_ids := [9],
    crashing := true }

/-- A packet arriving at the draining drone `dC10` (claim C10). -/
def pktC10 : Packet :=
  { pack_type := PacketType.Ack 0,
    routing_header := { hop_index := 0, hops := [5, 1] },
    session_id := 2 }

/-- C10: in the Draining state every packet received on the packet channel
is silently discarded — `run_step` dispatches to `crashing_handle_packet`,
whose source body is empty, so the loop continues with the very same drone
state (neighbor table, flood set, drop rate and lifecycle flag untouched)
and an empty effect list (no neighbor sends, no telemetry). -/
theorem draining_discards (d : SkyLinkDrone) (p : Packet) (r : Nat)
    (h : d.crashing = true) :
    run_step d (RunInput.pkt p r) = RunOutcome.next d [] := by
  simp [run_step, h, crashing_handle_packet]

/-- Witness for `draining_discards` at the concrete draining drone `dC10`
and packet `pktC10`. -/
theorem draining_discards_witness :
    dC10.crashing = true ∧
    run_step dC10 (RunInput.pkt pktC10 3) = RunOutcome.next dC10 [] :=
  ⟨rfl, draining_discards dC10 pktC10 3 rfl⟩

/-- C7: for an inbound non-flood packet whose cursor is in bounds
(`hops[hop_index]? = some x`), the checks run in the fixed order hop-match,
cursor advance, destination, drop, next-hop existence, and the first
failure determines the Nack:
1. a hop mismatch yields `UnexpectedRecipient(self_id)` built from the
   un-advanced packet;
2. when the advanced cursor equals `len(hops)` the result is
   `DestinationIsDrone`;
3. a drop-check failure short-circuits the next-hop check;
4. when every check passes the packet is returned with the cursor advanced;
and the advance changes the cursor by exactly one, leaving hops, kind and
session unchanged. -/
theorem apply_checks_fixed_order (drone : SkyLinkDrone) (packet : Packet)
    (r : Nat) (x : NodeId)
    (hx : packet.routing_header.hops[packet.routing_header.hop_index]? = some x) :
    (x ≠ drone.id →
      apply_checks drone packet r =
        some (Except.error
          (create_error packet (NackType.UnexpectedRecipient drone.id)))) ∧
    (x = drone.id →
      packet.routing_header.hop_index + 1 = packet.routing_header.hops.length →
      apply_checks drone packet r =
        some (Except.error
          (create_error (advanceHeader packet) NackType.DestinationIsDrone))) ∧
    (x = drone.id →
      packet.routing_header.hop_index + 1 < packet.routing_header.hops.length →
      ∀ e, pdr_check drone (advanceHeader packet) r = Except.error e →
        apply_checks drone packet r = some (Except.error e)) ∧
    (x = drone.id →
      packet.routing_header.hop_index + 1 < packet.routing_header.hops.length →
      pdr_check drone (advanceHeader packet) r = Except.ok () →
      is_next_hop_check drone (advanceHeader packet) = some (Except.ok ()) →
      apply_checks drone packet r = some (Except.ok (advanceHeader packet))) ∧
    (advanceHeader packet).routing_header.hop_index =
      packet.routing_header.hop_index + 1 ∧
    (advanceHeader packet).routing_header.hops = packet.routing_header.hops ∧
    (advanceHeader packet).pack_type = packet.pack_type ∧
    (advanceHeader packet).session_id = packet.session_id := by
  have hadv_idx : (advanceHeader packet).routing_header.hop_index =
      packet.routing_header.hop_index + 1 := rfl
  have hadv_hops : (advanceHeader packet).routing_header.hops =
      packet.routing_header.hops := rfl
  refine ⟨?_, ?_, ?_, ?_, rfl, rfl, rfl, rfl⟩
  · intro hne
    simp [apply_checks, id_hop_match_check, hx, hne]
  · intro heq hlen
    have hfd : final_destination_check (advanceHeader packet) =
        Except.error
          (create_error (advanceHeader packet) NackType.DestinationIsDrone) := by
      unfold final_destination_check
      rw [hadv_idx, hadv_hops, if_neg]
      omega
    simp [apply_checks, id_hop_match_check, hx, heq, hfd]
  · intro heq hlt e he
    have hfd : final_destination_check (advanceHeader packet) =
        Except.ok () := by
      unfold final_destination_check
      rw [hadv_idx, hadv_hops, if_pos hlt]
    simp [apply_checks, id_hop_match_check, hx, heq, hfd, he]
  · intro heq hlt hpdr hnext
    have hfd : final_destination_check (advanceHeader packet) =
        Except.ok () := by
      unfold final_destination_check
      rw [hadv_idx, hadv_hops, if_pos hlt]
    simp [apply_checks, id_hop_match_check, hx, heq, hfd, hpdr, hnext]

/-- A drone used to instantiate `apply_checks_fixed_order` (claim C7). -/
def dC7 : SkyLinkDrone :=
  { id := 2, packet_send := [(3, true)], pdr := 100, flood_ids := [],
    crashing := false }

/-- An `Ack` addressed to `dC7` with next hop 3 (claim C7). -/
def pktC7 : Packet :=
  { pack_type := PacketType.Ack 1,
    routing_header := { hop_index := 0, hops := [2, 3] },
    session_id := 11 }

/-- Witness for `apply_checks_fixed_order`: at `dC7` and `pktC7` the hop
matches, the advanced cursor stays in bounds, the drop check passes (an
`Ack` is never dropped) and neighbor 3 exists, so the pipeline returns the
packet with the cursor advanced. -/
theorem apply_checks_fixed_order_witness :
    pktC7.routing_header.hops[pktC7.routing_header.hop_index]? = some 2 ∧
    apply_checks dC7 pktC7 0 = some (Except.ok (advanceHeader pktC7)) :=
  ⟨rfl,
    (apply_checks_fixed_order dC7 pktC7 0 2 rfl).2.2.2.1 rfl (by decide) rfl rfl⟩

/-- A drone already in the Draining state (claim C9). -/
def dC9 : SkyLinkDrone :=
  { id := 2, packet_send := [], pdr := 0, flood_ids := [], crashing := true }

/-- C9: the specification says that once crashed the drone stops servicing
commands (true: `crashing` is never reset and `run_step` keeps a crashed
drone unchanged on any command input) and that the run loop terminates once
the packet channel is closed.  The source loop contains no `break` or
`return`: the closed-channel `Err` arm has an empty body, so the loop spins
forever — no input ever makes `run_step` halt, and on a crashed drone the
closed packet channel just yields the same state again. -/
theorem run_loop_never_halts :
    (∀ (d : SkyLinkDrone) (i : RunInput), (run_step d i).isHalt = false) ∧
    (∀ c : DroneCommand, (handle_command dC9 c).crashing = true) ∧
    (∀ c : DroneCommand, run_step dC9 (RunInput.cmd c) = RunOutcome.next dC9 []) ∧
    run_step dC9 RunInput.pktClosed = RunOutcome.next dC9 [] := by
  refine ⟨?_, ?_, ?_, rfl⟩
  · intro d i
    cases hcr : d.crashing <;> cases i <;>
      simp only [run_step, hcr, Bool.false_eq_true, if_false, if_true,
        RunOutcome.isHalt]
    rename_i p r
    cases handle_packet d p r <;> rfl
  · intro c
    cases c <;> rfl
  · intro c
    rfl

end SkyLink
